import Mathlib

/-!
Verification of the wave-hero adaptive rendering pipeline
(docs/js/wave-hero.js).

The development shallowly embeds the pipeline: JS numbers are modelled as
exact rationals (decimal literals from the source such as 0.05 are written
as the equal fraction 5/100, because that is the same rational), grids and
buffers as lists and index functions, the DOM/WebGL environment as a record
of boolean capability flags, exceptions as Except, and the
requestAnimationFrame scheduler as a list of pending request handles.
Math.sin is modelled as an arbitrary function parameter msin, since no
verified property depends on the analytic values of the sine function.
-/

namespace WaveHero

/-- A runtime exception raised by a DOM or library call. -/
inductive JsErr where
  | thrown : JsErr
deriving DecidableEq

/-- One resolved render configuration: the fields of every preset object in
the source (separation, amountX, amountY, color, optional color2,
waveHeight, waveSpeed, cameraZ, cameraY, particleSize, opacity). -/
structure Config where
  separation : ℚ
  amountX : ℕ
  amountY : ℕ
  color : ℤ
  color2 : Option ℤ
  waveHeight : ℚ
  waveSpeed : ℚ
  cameraZ : ℚ
  cameraY : ℚ
  particleSize : ℚ
  opacity : ℚ
deriving DecidableEq

/-- Source preset presets.waves (waveSpeed 0.05 = 5/100, opacity 0.4 = 4/10). -/
def wavesPreset : Config :=
  { separation := 80, amountX := 60, amountY := 40, color := 0x8b5cf6,
    color2 := none, waveHeight := 30, waveSpeed := 5/100, cameraZ := 1200,
    cameraY := 400, particleSize := 200, opacity := 4/10 }

/-- Source preset presets.particles. -/
def particlesPreset : Config :=
  { separation := 100, amountX := 50, amountY := 50, color := 0x06b6d4,
    color2 := none, waveHeight := 50, waveSpeed := 3/100, cameraZ := 1500,
    cameraY := 500, particleSize := 150, opacity := 3/10 }

/-- Source preset presets.grid. -/
def gridPreset : Config :=
  { separation := 60, amountX := 80, amountY := 50, color := 0xd4a543,
    color2 := none, waveHeight := 20, waveSpeed := 8/100, cameraZ := 1000,
    cameraY := 300, particleSize := 180, opacity := 5/10 }

/-- Source preset presets.nebula. -/
def nebulaPreset : Config :=
  { separation := 120, amountX := 40, amountY := 30, color := 0xa855f7,
    color2 := some 0x22d3ee, waveHeight := 60, waveSpeed := 2/100,
    cameraZ := 1800, cameraY := 600, particleSize := 250, opacity := 35/100 }

/-- Source preset presets.quantum. -/
def quantumPreset : Config :=
  { separation := 70, amountX := 70, amountY := 45, color := 0x22d3ee,
    color2 := some 0x8b5cf6, waveHeight := 40, waveSpeed := 4/100,
    cameraZ := 1100, cameraY := 350, particleSize := 220, opacity := 45/100 }

/-- Source preset presets.governance. -/
def governancePreset : Config :=
  { separation := 90, amountX := 55, amountY := 35, color := 0xd4a543,
    color2 := some 0x8b5cf6, waveHeight := 25, waveSpeed := 3/100,
    cameraZ := 1300, cameraY := 450, particleSize := 190, opacity := 35/100 }

/-- Source preset presets.classical (waveSpeed 0.045 = 45/1000). -/
def classicalPreset : Config :=
  { separation := 75, amountX := 65, amountY := 42, color := 0x8b5cf6,
    color2 := none, waveHeight := 35, waveSpeed := 45/1000, cameraZ := 1150,
    cameraY := 380, particleSize := 210, opacity := 4/10 }

/-- The property names of Object.prototype (ES2023 plus the Annex B
accessor pairs every browser ships). Reading any of them on an object
literal finds an inherited member: a built-in function, or for the
__proto__ accessor the prototype object itself. All are truthy. -/
def objectProtoKeys : List String :=
  ["constructor", "hasOwnProperty", "isPrototypeOf", "propertyIsEnumerable",
   "toLocaleString", "toString", "valueOf", "__defineGetter__",
   "__defineSetter__", "__lookupGetter__", "__lookupSetter__", "__proto__"]

/-- The result of the property read this.presets[name], prototype chain
included: an own data property holding a preset config, a member inherited
from Object.prototype, or undefined. -/
inductive PresetLookup where
  | ownPreset : Config → PresetLookup
  | protoMember : PresetLookup
  | undef : PresetLookup
deriving DecidableEq

/-- JS object property lookup this.presets[name]: one of the seven own
preset properties, else (the presets literal inherits from
Object.prototype) an inherited member for its property names, else
undefined. -/
def presets : String → PresetLookup := fun name =>
  if name = "waves" then PresetLookup.ownPreset wavesPreset
  else if name = "particles" then PresetLookup.ownPreset particlesPreset
  else if name = "grid" then PresetLookup.ownPreset gridPreset
  else if name = "nebula" then PresetLookup.ownPreset nebulaPreset
  else if name = "quantum" then PresetLookup.ownPreset quantumPreset
  else if name = "governance" then PresetLookup.ownPreset governancePreset
  else if name = "classical" then PresetLookup.ownPreset classicalPreset
  else if objectProtoKeys.contains name then PresetLookup.protoMember
  else PresetLookup.undef

/-- JS truthiness of the lookup result: every member actually found is
truthy (a config object, a built-in function, or Object.prototype);
undefined is falsy. -/
def lookupTruthy : PresetLookup → Bool
  | PresetLookup.undef => false
  | _ => true

/-- The pathPresets table, in source insertion order. -/
def pathPresets : List (String × String) :=
  [("/quantum", "quantum"), ("/governance", "governance"),
   ("/classical", "classical"), ("/blog", "nebula"), ("/about", "particles"),
   ("/visualizations", "grid"), ("/", "waves")]

/-- detectPreset: first table entry whose pattern is not "/" and is a leading
substring of the path wins; otherwise the default "waves". The JS
path.startsWith(pattern) test is modelled on the underlying character
lists. -/
def detectPreset (path : String) : String :=
  match pathPresets.find? (fun pr => (pr.1 != "/") && pr.1.data.isPrefixOf path.data) with
  | some pr => pr.2
  | none => "waves"

/-- JS string-valued a || b: an absent or empty (falsy) string falls back to
the default. -/
def strOr : Option String → String → String
  | some s, d => if s = "" then d else s
  | none, d => d

/-- An object carrying any subset of the config keys (some = key present).
It models both the caller-supplied custom bundle options.custom and the
resolved this.config object, which holds all config keys when the spread
base was a preset but only the custom-supplied keys when the base was an
inherited Object.prototype member. -/
structure Overrides where
  separation : Option ℚ
  amountX : Option ℕ
  amountY : Option ℕ
  color : Option ℤ
  color2 : Option ℤ
  waveHeight : Option ℚ
  waveSpeed : Option ℚ
  cameraZ : Option ℚ
  cameraY : Option ℚ
  particleSize : Option ℚ
  opacity : Option ℚ
deriving DecidableEq

/-- An absent options.custom: the empty spread. -/
def noOverrides : Overrides :=
  { separation := none, amountX := none, amountY := none, color := none,
    color2 := none, waveHeight := none, waveSpeed := none, cameraZ := none,
    cameraY := none, particleSize := none, opacity := none }

/-- A preset object viewed as an object of own config keys: every key
present, except color2 which only some presets carry. -/
def ofConfig (c : Config) : Overrides :=
  { separation := some c.separation, amountX := some c.amountX,
    amountY := some c.amountY, color := some c.color, color2 := c.color2,
    waveHeight := some c.waveHeight, waveSpeed := some c.waveSpeed,
    cameraZ := some c.cameraZ, cameraY := some c.cameraY,
    particleSize := some c.particleSize, opacity := some c.opacity }

/-- preset = this.presets[presetName] || this.presets.waves: the looked-up
member when truthy, the waves preset when the lookup gave undefined. -/
def chosenPreset (name : String) : PresetLookup :=
  if lookupTruthy (presets name) then presets name
  else PresetLookup.ownPreset wavesPreset

/-- The own enumerable fields the object spread of the chosen preset
contributes: all config keys of a preset object; nothing for an inherited
Object.prototype member, since built-in functions and Object.prototype
have no own enumerable properties; nothing for undefined either. -/
def spreadOwn : PresetLookup → Overrides
  | PresetLookup.ownPreset c => ofConfig c
  | PresetLookup.protoMember => noOverrides
  | PresetLookup.undef => noOverrides

/-- The object spread of the base followed by the custom bundle: keys
present in the custom bundle override the base object. -/
def mergePartial (base custom : Overrides) : Overrides :=
  { separation := match custom.separation with | some v => some v | none => base.separation,
    amountX := match custom.amountX with | some v => some v | none => base.amountX,
    amountY := match custom.amountY with | some v => some v | none => base.amountY,
    color := match custom.color with | some v => some v | none => base.color,
    color2 := match custom.color2 with | some v => some v | none => base.color2,
    waveHeight := match custom.waveHeight with | some v => some v | none => base.waveHeight,
    waveSpeed := match custom.waveSpeed with | some v => some v | none => base.waveSpeed,
    cameraZ := match custom.cameraZ with | some v => some v | none => base.cameraZ,
    cameraY := match custom.cameraY with | some v => some v | none => base.cameraY,
    particleSize := match custom.particleSize with | some v => some v | none => base.particleSize,
    opacity := match custom.opacity with | some v => some v | none => base.opacity }

/-- The options.color value as JS sees it: absent, NaN, or an integer color
value. -/
inductive JsNumOpt where
  | undefined : JsNumOpt
  | nan : JsNumOpt
  | num : ℤ → JsNumOpt
deriving DecidableEq

/-- JS truthiness of the color option: undefined and NaN are falsy, a number
is truthy exactly when it is nonzero. -/
def colorTruthy : JsNumOpt → Bool
  | JsNumOpt.num n => n != 0
  | _ => false

/-- The numeric value carried by a truthy color option. -/
def colorNum : JsNumOpt → ℤ
  | JsNumOpt.num n => n
  | _ => 0

/-- presetName = options.preset || this.detectPreset(). -/
def resolvePresetName (preset : Option String) (path : String) : String :=
  strOr preset (detectPreset path)

/-- The configuration-resolution steps of init: the prototype-aware preset
lookup with the waves || fallback, the object spread of the chosen base
and the custom bundle, then the conditional color override
if (options.color) this.config.color = options.color. The result is the
object stored in this.config. -/
def resolveConfig (preset : Option String) (path : String) (custom : Overrides)
    (color : JsNumOpt) : Overrides :=
  let p := chosenPreset (resolvePresetName preset path)
  let cfg := mergePartial (spreadOwn p) custom
  if colorTruthy color then { cfg with color := some (colorNum color) } else cfg

/-- The argument object of init(options). -/
structure InitOptions where
  preset : Option String
  container : Option String
  fallback : Option String
  color : JsNumOpt
  custom : Overrides

/-- The WaveHero fields written by the synchronous part of init. loadCalls
counts invocations of loadThreeJS, so it counts how many rendering
pipelines have been launched. -/
structure HeroState where
  inited : Bool
  config : Option Overrides
  containerId : String
  fallbackId : String
  loadCalls : ℕ
deriving DecidableEq

/-- The synchronous body of init: the already-initialized guard returns at
once; otherwise the config is resolved, element ids are fixed (with the JS
|| defaults), the initialized flag is set and loadThreeJS is invoked. -/
def initStep (o : InitOptions) (path : String) (s : HeroState) : HeroState :=
  if s.inited then s
  else
    { inited := true,
      config := some (resolveConfig o.preset path o.custom o.color),
      containerId := strOr o.container "wavehero-canvas",
      fallbackId := strOr o.fallback "wavehero-fallback",
      loadCalls := s.loadCalls + 1 }

/-- The runtime environment of one page session: which capability probes
succeed, which external script loads succeed, and which tier constructors
throw. -/
structure Env where
  threePresent : Bool
  threeLoadOk : Bool
  ctxThrows : Bool
  ctxOk : Bool
  gpuCtorThrows : Bool
  css3dLoadOk : Bool
  domCtorThrows : Bool

/-- The rendering tier a pipeline run ends in. -/
inductive Outcome where
  | gpu : Outcome
  | dom : Outcome
  | fallback : Outcome
deriving DecidableEq

/-- Tier-entry events recorded along a pipeline run: entering initWebGL,
entering the CSS3D path (initCSS3D/startCSS3D), reaching showFallback. -/
inductive Event where
  | enterGpu : Event
  | enterDom : Event
  | enterFallback : Event
deriving DecidableEq

/-- canvas.getContext inside webglSupported: may throw, otherwise reports
whether a usable WebGL context came back. -/
def getContextProbe (env : Env) : Except JsErr Bool :=
  if env.ctxThrows then Except.error JsErr.thrown else Except.ok env.ctxOk

/-- webglSupported: the probe wrapped in try/catch, any exception becomes
false. -/
def webglSupported (env : Env) : Bool :=
  match getContextProbe env with
  | Except.ok b => b
  | Except.error _ => false

/-- The THREE scene/camera/buffer/renderer construction inside the try block
of initWebGL: may throw. -/
def buildGpuScene (env : Env) : Except JsErr Unit :=
  if env.gpuCtorThrows then Except.error JsErr.thrown else Except.ok ()

/-- startCSS3D: its whole body is wrapped in try/catch and a caught
exception calls showFallback. Returns the tier events emitted after the
CSS3D tier was already entered. -/
def startCSS3Drun (env : Env) : Except JsErr (List Event × Outcome) :=
  match (if env.domCtorThrows then (Except.error JsErr.thrown : Except JsErr Unit)
         else Except.ok ()) with
  | Except.ok _ => Except.ok ([], Outcome.dom)
  | Except.error _ => Except.ok ([Event.enterFallback], Outcome.fallback)

/-- initCSS3D: loads the CSS3DRenderer script; onload runs startCSS3D,
onerror runs showFallback. -/
def initCSS3Drun (env : Env) : Except JsErr (List Event × Outcome) :=
  if env.css3dLoadOk then
    match startCSS3Drun env with
    | Except.ok (es, oc) => Except.ok (Event.enterDom :: es, oc)
    | Except.error e => Except.error e
  else Except.ok ([Event.enterDom, Event.enterFallback], Outcome.fallback)

/-- initWebGL: the GPU tier construction in a try block; the catch arm
logs and calls initCSS3D. -/
def initWebGLrun (env : Env) : Except JsErr (List Event × Outcome) :=
  match buildGpuScene env with
  | Except.ok _ => Except.ok ([Event.enterGpu], Outcome.gpu)
  | Except.error _ =>
    match initCSS3Drun env with
    | Except.ok (es, oc) => Except.ok (Event.enterGpu :: es, oc)
    | Except.error e => Except.error e

/-- onThreeLoaded: branch on webglSupported. -/
def onThreeLoadedRun (env : Env) : Except JsErr (List Event × Outcome) :=
  if webglSupported env then initWebGLrun env else initCSS3Drun env

/-- loadThreeJS: run at once when window.THREE is present, else load the
script with onload onThreeLoaded and onerror showFallback. -/
def loadThreeJSrun (env : Env) : Except JsErr (List Event × Outcome) :=
  if env.threePresent then onThreeLoadedRun env
  else if env.threeLoadOk then onThreeLoadedRun env
  else Except.ok ([Event.enterFallback], Outcome.fallback)

/-- One full init pipeline from a fresh session: configuration resolution
followed by the tier cascade, with every exception of a sub-step
propagated unless the source catches it. -/
def initRun (o : InitOptions) (path : String) (env : Env) :
    Except JsErr (Overrides × List Event × Outcome) :=
  let cfg := resolveConfig o.preset path o.custom o.color
  match loadThreeJSrun env with
  | Except.ok (es, oc) => Except.ok (cfg, es, oc)
  | Except.error e => Except.error e

/-- Did the computation finish without an uncaught exception? -/
def exceptOk {α : Type _} : Except JsErr α → Bool
  | Except.ok _ => true
  | Except.error _ => false

/-- The sequence of tier-entry events of one init pipeline. -/
def initTrace (env : Env) : List Event :=
  match loadThreeJSrun env with
  | Except.ok (es, _) => es
  | Except.error _ => []

/-- Every trace an init pipeline can produce: a prefix-closed descent
gpu, then dom, then fallback, entered at the point the environment forces. -/
def possibleTraces : List (List Event) :=
  [[Event.enterGpu],
   [Event.enterGpu, Event.enterDom],
   [Event.enterGpu, Event.enterDom, Event.enterFallback],
   [Event.enterDom],
   [Event.enterDom, Event.enterFallback],
   [Event.enterFallback]]

/-- The requestAnimationFrame scheduler: a fresh-handle counter and the
list of pending request handles. Handles are unique, so cancelling a
handle removes every pending occurrence of it. -/
structure RafState where
  nextId : ℕ
  pending : List ℕ
deriving DecidableEq

/-- requestAnimationFrame: hand out the next handle and record it pending. -/
def rafRequest (r : RafState) : ℕ × RafState :=
  (r.nextId, { nextId := r.nextId + 1, pending := r.pending ++ [r.nextId] })

/-- cancelAnimationFrame: the request with this handle is no longer
pending. -/
def rafCancel (r : RafState) (id : ℕ) : RafState :=
  { nextId := r.nextId, pending := r.pending.filter (fun x => x != id) }

/-- The WebGL renderer object, as far as destroy observes it. -/
structure GpuRenderer where
  disposed : Bool
deriving DecidableEq

/-- The CSS3D renderer object: whether it carries a domElement and whether
that element is still attached to the document. -/
structure Css3dRenderer where
  hasDomElement : Bool
  attached : Bool
deriving DecidableEq

/-- The WaveHero fields that animate and destroy touch. -/
structure LoopHero where
  animationId : Option ℕ
  renderer : Option GpuRenderer
  css3dRenderer : Option Css3dRenderer
  inited : Bool
deriving DecidableEq

/-- Scheduler plus pipeline state. -/
structure Sys where
  raf : RafState
  hero : LoopHero
deriving DecidableEq

/-- One invocation of the loop callback inside animate: its first statement
re-requests the next frame and stores the new handle in animationId. -/
def loopBody (s : Sys) : Sys :=
  let req := rafRequest s.raf
  { raf := req.2, hero := { s.hero with animationId := some req.1 } }

/-- The host firing the render-loop frame: possible exactly when the handle
recorded in animationId is still pending; firing consumes the request and
runs the loop callback. -/
def fireLoopStep (s : Sys) : Option Sys :=
  match s.hero.animationId with
  | some id =>
    if id ∈ s.raf.pending then
      some (loopBody { s with raf := { nextId := s.raf.nextId,
                                       pending := s.raf.pending.filter (fun x => x != id) } })
    else none
  | none => none

/-- this.renderer.dispose(): a method call, so it throws on null. -/
def disposeCall : Option GpuRenderer → Except JsErr (Option GpuRenderer)
  | none => Except.error JsErr.thrown
  | some _ => Except.ok (some { disposed := true })

/-- this.css3dRenderer.domElement.remove(): a method call, so it throws on
null; it detaches the element. -/
def removeDomElement : Option Css3dRenderer → Except JsErr (Option Css3dRenderer)
  | none => Except.error JsErr.thrown
  | some cr => Except.ok (some { hasDomElement := cr.hasDomElement, attached := false })

/-- destroy: cancel the recorded frame request if any, dispose the WebGL
renderer behind its null guard, remove the CSS3D dom element behind its
null-and-domElement guard, and clear the initialized flag. animationId is
left as the source leaves it (never nulled). -/
def destroyRun (s : Sys) : Except JsErr Sys := do
  let raf1 := match s.hero.animationId with
    | some id => rafCancel s.raf id
    | none => s.raf
  let r1 ← (if s.hero.renderer.isSome then disposeCall s.hero.renderer
            else Except.ok s.hero.renderer)
  let c1 ← (match s.hero.css3dRenderer with
    | some cr =>
      if cr.hasDomElement then removeDomElement (some cr) else Except.ok (some cr)
    | none => Except.ok none)
  return { raf := raf1,
           hero := { animationId := s.hero.animationId, renderer := r1,
                     css3dRenderer := c1, inited := false } }

/-- The state destroy leaves behind, as a total function. -/
def destroyAbs (s : Sys) : Sys :=
  { raf := match s.hero.animationId with
      | some id => rafCancel s.raf id
      | none => s.raf,
    hero := { animationId := s.hero.animationId,
              renderer := s.hero.renderer.map (fun _ => { disposed := true }),
              css3dRenderer := s.hero.css3dRenderer.map (fun cr =>
                if cr.hasDomElement then { hasDomElement := cr.hasDomElement, attached := false }
                else cr),
              inited := false } }

/-- The position Float32Array built in initWebGL: the nested
ix-in-amountX, iy-in-amountY loop appends, per point, the three entries
x = ix*separation - (amountX*separation)/2, y = 0,
z = iy*separation - (amountY*separation)/2, in loop order. -/
def buildPositions (cfg : Config) : List ℚ :=
  (List.range cfg.amountX).flatMap (fun (ix : ℕ) =>
    (List.range cfg.amountY).flatMap (fun (iy : ℕ) =>
      [(ix : ℚ) * cfg.separation - (cfg.amountX : ℚ) * cfg.separation / 2,
       0,
       (iy : ℚ) * cfg.separation - (cfg.amountY : ℚ) * cfg.separation / 2]))

/-- The scale Float32Array built in initWebGL: one entry 1 per point, in
the same loop order. -/
def buildScales (cfg : Config) : List ℚ :=
  (List.range cfg.amountX).flatMap (fun (_ : ℕ) =>
    (List.range cfg.amountY).map (fun (_ : ℕ) => (1 : ℚ)))

/-- The grid of (x, z) pairs laid out by the construction loop; used to
restate buildPositions as a flat list of (x, 0, z) triples. -/
def gridPairs (cfg : Config) : List (ℚ × ℚ) :=
  (List.range cfg.amountX).flatMap (fun (ix : ℕ) =>
    (List.range cfg.amountY).map (fun (iy : ℕ) =>
      ((ix : ℚ) * cfg.separation - (cfg.amountX : ℚ) * cfg.separation / 2,
       (iy : ℚ) * cfg.separation - (cfg.amountY : ℚ) * cfg.separation / 2)))

/-- A single array store buffer[k] = v, on the index-function view of a
flat numeric buffer. -/
def updFun (f : ℕ → ℚ) (k : ℕ) (v : ℚ) : ℕ → ℚ :=
  fun j => if j = k then v else f j

/-- Run a list of array stores left to right. -/
def applyWrites (ws : List (ℕ × ℚ)) (f : ℕ → ℚ) : ℕ → ℚ :=
  ws.foldl (fun g w => updFun g w.1 w.2) f

/-- The last value a list of stores writes at index k, if any. -/
def lastWrite (ws : List (ℕ × ℚ)) (k : ℕ) : Option ℚ :=
  (ws.reverse.find? (fun w => w.1 == k)).map Prod.snd

/-- The y value the wave loop writes for column ix, row iy at time cursor t:
Math.sin((ix + count) * 0.3) * waveHeight + Math.sin((iy + count) * 0.5)
* waveHeight, with 0.3 = 3/10 and 0.5 = 5/10 and Math.sin the parameter
msin. -/
def waveY (cfg : Config) (msin : ℚ → ℚ) (t : ℚ) (ix iy : ℕ) : ℚ :=
  msin (((ix : ℚ) + t) * (3/10)) * cfg.waveHeight +
    msin (((iy : ℚ) + t) * (5/10)) * cfg.waveHeight

/-- The scale value the wave loop writes for column ix, row iy at time
cursor t: (Math.sin((ix + count) * 0.3) + 1) * 8 +
(Math.sin((iy + count) * 0.5) + 1) * 8. -/
def waveScaleVal (msin : ℚ → ℚ) (t : ℚ) (ix iy : ℕ) : ℚ :=
  (msin (((ix : ℚ) + t) * (3/10)) + 1) * 8 +
    (msin (((iy : ℚ) + t) * (5/10)) + 1) * 8

/-- The stores pos[i + 1] = ... of one pass of the wave loop in animate, in
loop order: the running counter i is 3 * (ix * amountY + iy). The config
is unused for the y formula beyond waveHeight but kept whole for
fidelity. -/
def posWrites (cfg : Config) (msin : ℚ → ℚ) (t : ℚ) : List (ℕ × ℚ) :=
  (List.range cfg.amountX).flatMap (fun (ix : ℕ) =>
    (List.range cfg.amountY).map (fun (iy : ℕ) =>
      (3 * (ix * cfg.amountY + iy) + 1, waveY cfg msin t ix iy)))

/-- The stores scl[j] = ... of one pass of the wave loop, j = ix * amountY
+ iy. -/
def scaleWrites (cfg : Config) (msin : ℚ → ℚ) (t : ℚ) : List (ℕ × ℚ) :=
  (List.range cfg.amountX).flatMap (fun (ix : ℕ) =>
    (List.range cfg.amountY).map (fun (iy : ℕ) =>
      (ix * cfg.amountY + iy, waveScaleVal msin t ix iy)))

/-- One pass of the per-frame wave update over the position buffer. -/
def advancePos (cfg : Config) (msin : ℚ → ℚ) (t : ℚ) (pos : ℕ → ℚ) : ℕ → ℚ :=
  applyWrites (posWrites cfg msin t) pos

/-- One pass of the per-frame wave update over the scale buffer. -/
def advanceScale (cfg : Config) (msin : ℚ → ℚ) (t : ℚ) (scl : ℕ → ℚ) : ℕ → ℚ :=
  applyWrites (scaleWrites cfg msin t) scl

/-- The constructed position buffer viewed as an index function (reads
outside the buffer yield the Float32Array fill value 0). -/
def posBuf (cfg : Config) : ℕ → ℚ :=
  fun k => (buildPositions cfg).getD k 0

/-- startCSS3D: amountX = Math.min(cfg.amountX, 20). -/
def css3dAmountX (cfg : Config) : ℕ := min cfg.amountX 20

/-- startCSS3D: amountY = Math.min(cfg.amountY, 15). -/
def css3dAmountY (cfg : Config) : ℕ := min cfg.amountY 15

/-- startCSS3D: separation = cfg.separation * 1.5, with 1.5 = 3/2. -/
def css3dSeparation (cfg : Config) : ℚ := cfg.separation * (3/2)

/-- One CSS3D point element: its 3D position and its userData grid
indices. -/
structure DomPoint where
  posX : ℚ
  posZ : ℚ
  ix : ℕ
  iy : ℕ
deriving DecidableEq

/-- The particle elements startCSS3D creates, in loop order: position.x =
ix*separation - (amountX*separation)/2, position.z likewise over the
capped grid with the widened separation. -/
def startCSS3Dparticles (cfg : Config) : List DomPoint :=
  (List.range (css3dAmountX cfg)).flatMap (fun (ix : ℕ) =>
    (List.range (css3dAmountY cfg)).map (fun (iy : ℕ) =>
      DomPoint.mk
        ((ix : ℚ) * css3dSeparation cfg -
          (css3dAmountX cfg : ℚ) * css3dSeparation cfg / 2)
        ((iy : ℚ) * css3dSeparation cfg -
          (css3dAmountY cfg : ℚ) * css3dSeparation cfg / 2)
        ix iy))

theorem applyWrites_append (ws : List (ℕ × ℚ)) (w : ℕ × ℚ) (f : ℕ → ℚ) :
    applyWrites (ws ++ [w]) f = updFun (applyWrites ws f) w.1 w.2 := by
  simp [applyWrites, List.foldl_append]

theorem lastWrite_append (ws : List (ℕ × ℚ)) (w : ℕ × ℚ) (k : ℕ) :
    lastWrite (ws ++ [w]) k = if w.1 = k then some w.2 else lastWrite ws k := by
  unfold lastWrite
  rw [List.reverse_append]
  by_cases h : w.1 = k
  · simp [h]
  · simp [h]

theorem applyWrites_apply (ws : List (ℕ × ℚ)) (f : ℕ → ℚ) (k : ℕ) :
    applyWrites ws f k = (lastWrite ws k).getD (f k) := by
  induction ws using List.reverseRecOn with
  | nil => simp [applyWrites, lastWrite]
  | append_singleton ws w ih =>
    rw [applyWrites_append, lastWrite_append]
    by_cases h : w.1 = k
    · subst h
      simp [updFun]
    · have hk : k ≠ w.1 := fun hh => h hh.symm
      simp [updFun, hk, h, ih]

theorem applyWrites_idem (ws : List (ℕ × ℚ)) (f : ℕ → ℚ) :
    applyWrites ws (applyWrites ws f) = applyWrites ws f := by
  funext k
  rw [applyWrites_apply, applyWrites_apply]
  cases h : lastWrite ws k <;> simp [h]

theorem lastWrite_eq_none (ws : List (ℕ × ℚ)) (k : ℕ)
    (h : ∀ w ∈ ws, w.1 ≠ k) : lastWrite ws k = none := by
  unfold lastWrite
  rw [List.find?_eq_none.mpr]
  · rfl
  · intro w hw
    simpa using h w (List.mem_reverse.mp hw)

theorem advancePos_ne_y (cfg : Config) (msin : ℚ → ℚ) (t : ℚ) (pos : ℕ → ℚ)
    (k : ℕ) (hk : k % 3 ≠ 1) : advancePos cfg msin t pos k = pos k := by
  rw [advancePos, applyWrites_apply, lastWrite_eq_none, Option.getD_none]
  intro w hw
  simp only [posWrites, List.mem_flatMap, List.mem_map, List.mem_range] at hw
  obtain ⟨ix, _, iy, _, hw⟩ := hw
  intro hcontra
  rw [← hw] at hcontra
  simp only at hcontra
  omega

theorem advancePos_foldl_ne_y (cfg : Config) (msin : ℚ → ℚ) (ts : List ℚ)
    (p : ℕ → ℚ) (k : ℕ) (hk : k % 3 ≠ 1) :
    (ts.foldl (fun q t => advancePos cfg msin t q) p) k = p k := by
  induction ts generalizing p with
  | nil => rfl
  | cons t ts ih =>
    rw [List.foldl_cons, ih (advancePos cfg msin t p)]
    exact advancePos_ne_y cfg msin t p k hk

theorem length_flatMap_const {α β : Type} (l : List α) (f : α → List β) (n : ℕ)
    (h : ∀ a ∈ l, (f a).length = n) : (l.flatMap f).length = l.length * n := by
  induction l with
  | nil => simp
  | cons a l ih =>
    rw [List.flatMap_cons, List.length_append, h a (List.mem_cons_self a l),
      ih (fun x hx => h x (List.mem_cons_of_mem a hx)), List.length_cons]
    ring

theorem buildPositions_eq_gridPairs (cfg : Config) :
    buildPositions cfg = (gridPairs cfg).flatMap (fun pr => [pr.1, 0, pr.2]) := by
  unfold buildPositions gridPairs
  rw [List.flatMap_assoc]
  congr 1
  funext ix
  rw [List.flatMap_map]

theorem flat3_getD_mid (ps : List (ℚ × ℚ)) (k : ℕ) (hk : k % 3 = 1) :
    (ps.flatMap (fun pr => [pr.1, 0, pr.2])).getD k 0 = 0 := by
  induction ps generalizing k with
  | nil => simp
  | cons pr ps ih =>
    rw [List.flatMap_cons]
    rcases k with _ | k
    · omega
    rcases k with _ | k
    · rfl
    rcases k with _ | k
    · omega
    exact ih k (by omega)

/-- Claim C8, counterexample: the claim quantifies over every string that is
not a defined preset name, and two families of such strings do not resolve
to the waves baseline. The empty string is falsy, so
options.preset || detectPreset() falls back to URL-path detection: on the
path /quantum the resolved config is the quantum preset. And a property
name of Object.prototype such as toString finds a truthy inherited member,
so the || waves fallback is skipped and the spread of that member
contributes no own enumerable fields: the resolved config holds no preset
values at all. -/
theorem non_preset_names_not_resolved_to_waves :
    (resolveConfig (some "") "/quantum" noOverrides JsNumOpt.undefined
        = ofConfig quantumPreset
      ∧ ofConfig quantumPreset ≠ ofConfig wavesPreset)
    ∧ (resolveConfig (some "toString") "/" noOverrides JsNumOpt.undefined
        = noOverrides
      ∧ noOverrides ≠ ofConfig wavesPreset) := by
  refine ⟨⟨rfl, ?_⟩, ⟨rfl, ?_⟩⟩
  · intro h
    have h2 := congrArg Overrides.amountX h
    simp [ofConfig, quantumPreset, wavesPreset] at h2
  · intro h
    have h2 := congrArg Overrides.amountX h
    simp [noOverrides, ofConfig, wavesPreset] at h2

/-- Claim C8, amended: for every nonempty preset name that is neither one
of the seven defined preset names nor a property name inherited from
Object.prototype, the lookup yields undefined, the || fallback fires, and
init silently resolves the configuration to exactly the baseline waves
preset, given no overrides. The excluded cases behave differently: an
empty name is falsy and falls back to URL-path detection, and an inherited
name such as toString yields a truthy prototype member whose spread
contributes no fields. -/
theorem unknown_preset_resolves_to_waves (name path : String)
    (hne : name ≠ "") (hundef : presets name = PresetLookup.undef) :
    resolveConfig (some name) path noOverrides JsNumOpt.undefined
      = ofConfig wavesPreset := by
  have h1 : resolvePresetName (some name) path = name := by
    simp [resolvePresetName, strOr, hne]
  unfold resolveConfig chosenPreset
  rw [h1, hundef]
  rfl

/-- Witness for C8: the unknown name bogus (nonempty, not a preset, not an
Object.prototype property) yields exactly the waves preset, the concrete
scenario named by the claim. -/
theorem unknown_preset_resolves_to_waves_witness :
    resolveConfig (some "bogus") "/" noOverrides JsNumOpt.undefined
      = ofConfig wavesPreset :=
  unknown_preset_resolves_to_waves "bogus" "/" (by decide) (by decide)

/-- Claim C9: init is idempotent. A second init call with no intervening
destroy hits the initialized guard and returns the state unchanged, so the
observable state equals the state after the first call alone; the first
call from an uninitialized state launches exactly one rendering pipeline
(one loadThreeJS invocation, hence one renderer and one config). -/
theorem init_idempotent (s : HeroState) (o1 o2 : InitOptions) (p1 p2 : String) :
    initStep o2 p2 (initStep o1 p1 s) = initStep o1 p1 s
    ∧ (s.inited = false → (initStep o1 p1 s).loadCalls = s.loadCalls + 1) := by
  cases h : s.inited <;>
    simp [initStep, h]

/-- Witness for C9 at a concrete fresh state and concrete options. -/
theorem init_idempotent_witness :
    initStep (InitOptions.mk none none none JsNumOpt.undefined noOverrides) "/"
        (initStep (InitOptions.mk none none none JsNumOpt.undefined noOverrides) "/"
          (HeroState.mk false none "" "" 0))
      = initStep (InitOptions.mk none none none JsNumOpt.undefined noOverrides) "/"
          (HeroState.mk false none "" "" 0)
    ∧ (initStep (InitOptions.mk none none none JsNumOpt.undefined noOverrides) "/"
        (HeroState.mk false none "" "" 0)).loadCalls
      = (HeroState.mk false none "" "" 0).loadCalls + 1 :=
  ⟨(init_idempotent (HeroState.mk false none "" "" 0)
      (InitOptions.mk none none none JsNumOpt.undefined noOverrides)
      (InitOptions.mk none none none JsNumOpt.undefined noOverrides) "/" "/").1,
   (init_idempotent (HeroState.mk false none "" "" 0)
      (InitOptions.mk none none none JsNumOpt.undefined noOverrides)
      (InitOptions.mk none none none JsNumOpt.undefined noOverrides) "/" "/").2 rfl⟩

/-- Claim C10: the color override is applied only when options.color is
truthy. For every preset choice and custom bundle, a falsy color value
(undefined, NaN, or 0) leaves the resolved config equal to the plain
preset-plus-custom merge, so the merged color is kept; a nonzero numeric
override is applied. -/
theorem color_override_only_when_truthy (preset : Option String) (path : String)
    (custom : Overrides) (c : JsNumOpt) :
    (colorTruthy c = false →
      resolveConfig preset path custom c =
        mergePartial (spreadOwn (chosenPreset (resolvePresetName preset path))) custom)
    ∧ (∀ n : ℤ, c = JsNumOpt.num n → n ≠ 0 →
      (resolveConfig preset path custom c).color = some n) := by
  constructor
  · intro h
    simp [resolveConfig, h]
  · intro n hc hn
    subst hc
    have ht : colorTruthy (JsNumOpt.num n) = true := by
      simp [colorTruthy, hn]
    simp [resolveConfig, ht, colorNum]

/-- Witness for C10: the black override 0 is ignored on the waves preset,
while the nonzero override 255 is applied. -/
theorem color_override_only_when_truthy_witness :
    resolveConfig (some "waves") "/" noOverrides (JsNumOpt.num 0) =
      mergePartial (spreadOwn (chosenPreset (resolvePresetName (some "waves") "/")))
        noOverrides
    ∧ (resolveConfig (some "waves") "/" noOverrides (JsNumOpt.num 255)).color
        = some 255 :=
  ⟨(color_override_only_when_truthy (some "waves") "/" noOverrides
      (JsNumOpt.num 0)).1 (by decide),
   (color_override_only_when_truthy (some "waves") "/" noOverrides
      (JsNumOpt.num 255)).2 255 rfl (by decide)⟩

theorem loadThreeJSrun_ok : ∀ (a b c d e f g : Bool),
    exceptOk (loadThreeJSrun (Env.mk a b c d e f g)) = true := by
  decide

/-- Claim C1: init never throws to its caller. For every options argument
and every environment (the library present or not, its load succeeding or
not, the WebGL probe throwing or returning no context, the GPU tier
constructor throwing, the CSS3D library load failing, the DOM tier
constructor throwing), the pipeline completes without an uncaught
exception and ends in one of the three rendered outcomes, at worst the
static gradient fallback. -/
theorem init_never_throws (o : InitOptions) (path : String) (env : Env) :
    ∃ r, initRun o path env = Except.ok r := by
  obtain ⟨a, b, c, d, e, f, g⟩ := env
  have h := loadThreeJSrun_ok a b c d e f g
  unfold initRun
  cases hr : loadThreeJSrun (Env.mk a b c d e f g) with
  | ok p =>
    obtain ⟨es, oc⟩ := p
    exact ⟨(resolveConfig o.preset path o.custom o.color, es, oc), rfl⟩
  | error e =>
    rw [hr] at h
    simp [exceptOk] at h

/-- Claim C2: tier downgrade is monotonic within one session. Every trace
of tier entries an init pipeline can produce is one of the descending
chains gpu, gpu-dom, gpu-dom-fallback, dom, dom-fallback, fallback: once
the DOM tier or the fallback has been entered no later event re-enters the
GPU tier, the only downgrade transitions are GPU to DOM and DOM to
fallback, and the GPU tier is entered at most once per session. -/
theorem tier_downgrade_monotone (env : Env) :
    initTrace env ∈ possibleTraces
    ∧ (initTrace env).count Event.enterGpu ≤ 1 := by
  obtain ⟨a, b, c, d, e, f, g⟩ := env
  revert a b c d e f g
  decide

theorem filter_self_idem (p : ℕ → Bool) (l : List ℕ) :
    (l.filter p).filter p = l.filter p :=
  List.filter_eq_self.mpr (fun a ha => (List.mem_filter.mp ha).2)

theorem destroyRun_eq (s : Sys) : destroyRun s = Except.ok (destroyAbs s) := by
  rcases s with ⟨⟨n, pend⟩, ⟨aid, r, c, i⟩⟩
  rcases r with _ | rr <;> rcases c with _ | ⟨hd, att⟩
  all_goals try cases hd
  all_goals simp [destroyRun, destroyAbs, disposeCall, removeDomElement,
    Bind.bind, Except.bind, Pure.pure, Except.pure]

theorem destroyAbs_idem (s : Sys) : destroyAbs (destroyAbs s) = destroyAbs s := by
  rcases s with ⟨⟨n, pend⟩, ⟨aid, r, c, i⟩⟩
  rcases aid with _ | id <;> rcases r with _ | rr <;> rcases c with _ | ⟨hd, att⟩
  all_goals try cases hd
  all_goals simp [destroyAbs, rafCancel, filter_self_idem]

/-- Claim C3: after destroy returns, the render loop frame request recorded
in animationId is no longer pending, so no further animation-frame
callback of the loop can ever fire; and destroy is idempotent, hence safe
to call repeatedly or before init ever ran (on any state, including one
with no renderer and no animation id, it completes without throwing). -/
theorem destroy_stops_loop_and_is_safe (s : Sys) :
    ∃ s2, destroyRun s = Except.ok s2
      ∧ fireLoopStep s2 = none
      ∧ destroyRun s2 = Except.ok s2 := by
  refine ⟨destroyAbs s, destroyRun_eq s, ?_, ?_⟩
  · unfold fireLoopStep
    rcases ha : s.hero.animationId with _ | id
    · simp [destroyAbs, ha]
    · simp [destroyAbs, ha, rafCancel, List.mem_filter]
  · rw [destroyRun_eq (destroyAbs s), destroyAbs_idem s]

/-- A small concrete configuration used to instantiate witnesses. -/
def testConfig : Config :=
  { separation := 10, amountX := 2, amountY := 2, color := 0,
    color2 := none, waveHeight := 30, waveSpeed := 5/100, cameraZ := 1200,
    cameraY := 400, particleSize := 200, opacity := 4/10 }

/-- Claim C4: for every grid extent with amountX, amountY at least 1, the
position buffer built by the GPU tier has exactly 3 times amountX times
amountY entries and the scale buffer exactly amountX times amountY
entries, every y entry (index 1 mod 3) is initialized to 0 and every
scale entry to 1. -/
theorem build_buffers_spec (cfg : Config)
    (_hX : 1 ≤ cfg.amountX) (_hY : 1 ≤ cfg.amountY) :
    (buildPositions cfg).length = 3 * (cfg.amountX * cfg.amountY)
    ∧ (buildScales cfg).length = cfg.amountX * cfg.amountY
    ∧ (∀ k, k % 3 = 1 → (buildPositions cfg).getD k 0 = 0)
    ∧ (∀ q ∈ buildScales cfg, q = 1) := by
  refine ⟨?_, ?_, ?_, ?_⟩
  · unfold buildPositions
    rw [length_flatMap_const _ _ (cfg.amountY * 3)]
    · rw [List.length_range]
      ring
    · intro ix _
      rw [length_flatMap_const _ _ 3]
      · rw [List.length_range]
      · intro iy _
        rfl
  · unfold buildScales
    rw [length_flatMap_const _ _ cfg.amountY]
    · rw [List.length_range]
    · intro ix _
      rw [List.length_map, List.length_range]
  · intro k hk
    rw [buildPositions_eq_gridPairs]
    exact flat3_getD_mid _ k hk
  · intro q hq
    simp only [buildScales, List.mem_flatMap, List.mem_map, List.mem_range] at hq
    obtain ⟨ix, _, iy, _, h⟩ := hq
    exact h.symm

/-- Witness for C4 at a concrete 2 by 2 grid. -/
theorem build_buffers_spec_witness :
    (buildPositions testConfig).length = 3 * (testConfig.amountX * testConfig.amountY)
    ∧ (buildScales testConfig).length = testConfig.amountX * testConfig.amountY
    ∧ (∀ k, k % 3 = 1 → (buildPositions testConfig).getD k 0 = 0)
    ∧ (∀ q ∈ buildScales testConfig, q = 1) :=
  build_buffers_spec testConfig (by decide) (by decide)

/-- Claim C5: one pass of the per-frame wave update writes y and scale
values that depend only on (column, row, time cursor) and not on the
buffer contents, so for every config, every interpretation of Math.sin,
every time cursor and any buffers, applying the pass twice equals
applying it once: the animation carries no stateful accumulation in the
buffers. -/
theorem advance_idempotent (cfg : Config) (msin : ℚ → ℚ) (t : ℚ)
    (pos scl : ℕ → ℚ) :
    advancePos cfg msin t (advancePos cfg msin t pos) = advancePos cfg msin t pos
    ∧ advanceScale cfg msin t (advanceScale cfg msin t scl) = advanceScale cfg msin t scl :=
  ⟨applyWrites_idem _ _, applyWrites_idem _ _⟩

/-- Claim C6: across any number of frames of the GPU tier loop, only the y
components (index 1 mod 3) of the position buffer are mutated: every x and
z entry still holds exactly the value fixed at construction from the grid
layout. -/
theorem advance_only_mutates_y (cfg : Config) (msin : ℚ → ℚ) (ts : List ℚ)
    (k : ℕ) (hk : k % 3 ≠ 1) :
    (ts.foldl (fun p t => advancePos cfg msin t p) (posBuf cfg)) k = posBuf cfg k :=
  advancePos_foldl_ne_y cfg msin ts (posBuf cfg) k hk

/-- Witness for C6: one frame at time cursor 0 leaves the x entry at index
0 untouched. -/
theorem advance_only_mutates_y_witness :
    ([(0 : ℚ)].foldl (fun p t => advancePos testConfig (fun _ => 0) t p)
      (posBuf testConfig)) 0 = posBuf testConfig 0 :=
  advance_only_mutates_y testConfig (fun _ => 0) [0] 0 (by decide)

/-- Claim C7, counterexample: the DOM tier widening does not preserve the
field footprint. On the waves preset the X extent of the reduced grid,
points times spacing, is min(60, 20) * (80 * 1.5) = 2400, while the full
GPU grid covers 60 * 80 = 4800. -/
theorem css3d_footprint_not_preserved :
    (css3dAmountX wavesPreset : ℚ) * css3dSeparation wavesPreset
      ≠ (wavesPreset.amountX : ℚ) * wavesPreset.separation := by
  have h1 : css3dAmountX wavesPreset = 20 := rfl
  have h2 : wavesPreset.amountX = 60 := rfl
  rw [h1, h2, css3dSeparation]
  show (20 : ℚ) * ((wavesPreset.separation) * (3/2)) ≠ (60 : ℚ) * wavesPreset.separation
  have h3 : wavesPreset.separation = 80 := rfl
  rw [h3]
  norm_num

theorem scaled_min_eq_iff (m a : ℕ) (s : ℚ) (hs : 0 < s) :
    (m : ℚ) * (s * (3/2)) = (a : ℚ) * s ↔ 3 * m = 2 * a := by
  constructor
  · intro h
    have key : ((3 : ℚ) * m) * s = ((2 : ℚ) * a) * s := by
      ring_nf
      ring_nf at h
      linarith
    have h2 := mul_right_cancel₀ (ne_of_gt hs) key
    exact_mod_cast h2
  · intro h
    have h2 : (3 : ℚ) * m = 2 * a := by exact_mod_cast h
    linear_combination (s / 2) * h2

/-- Claim C7, amended: the DOM tier uses at most 20 by 15 points (amountX
capped at 20, amountY at 15), builds exactly capped-X times capped-Y
elements laid out on the widened spacing separation * 1.5, and for
positive separation this widening preserves the X-axis footprint (points
times spacing) exactly when amountX is 0 or 30 and the Y-axis footprint
only for an empty grid; in particular the footprint is not preserved in
general. -/
theorem css3d_grid_spec (cfg : Config) (hsep : 0 < cfg.separation) :
    css3dAmountX cfg ≤ 20
    ∧ css3dAmountY cfg ≤ 15
    ∧ (startCSS3Dparticles cfg).length = css3dAmountX cfg * css3dAmountY cfg
    ∧ (∀ p ∈ startCSS3Dparticles cfg,
        p.ix < css3dAmountX cfg ∧ p.iy < css3dAmountY cfg
        ∧ p.posX = (p.ix : ℚ) * css3dSeparation cfg -
            (css3dAmountX cfg : ℚ) * css3dSeparation cfg / 2
        ∧ p.posZ = (p.iy : ℚ) * css3dSeparation cfg -
            (css3dAmountY cfg : ℚ) * css3dSeparation cfg / 2)
    ∧ ((css3dAmountX cfg : ℚ) * css3dSeparation cfg = (cfg.amountX : ℚ) * cfg.separation
        ↔ (cfg.amountX = 0 ∨ cfg.amountX = 30))
    ∧ ((css3dAmountY cfg : ℚ) * css3dSeparation cfg = (cfg.amountY : ℚ) * cfg.separation
        ↔ cfg.amountY = 0) := by
  refine ⟨min_le_right _ _, min_le_right _ _, ?_, ?_, ?_, ?_⟩
  · unfold startCSS3Dparticles
    rw [length_flatMap_const _ _ (css3dAmountY cfg)]
    · rw [List.length_range]
    · intro ix _
      rw [List.length_map, List.length_range]
  · intro p hp
    simp only [startCSS3Dparticles, List.mem_flatMap, List.mem_map,
      List.mem_range] at hp
    obtain ⟨ix, hix, iy, hiy, rfl⟩ := hp
    exact ⟨hix, hiy, rfl, rfl⟩
  · rw [css3dSeparation, scaled_min_eq_iff _ _ _ hsep]
    unfold css3dAmountX
    omega
  · rw [css3dSeparation, scaled_min_eq_iff _ _ _ hsep]
    unfold css3dAmountY
    omega

/-- Witness for C7 at the waves preset: caps 20 and 15, 300 elements, and
both footprint equivalences, whose right-hand sides are false there. -/
theorem css3d_grid_spec_witness :
    css3dAmountX wavesPreset ≤ 20
    ∧ css3dAmountY wavesPreset ≤ 15
    ∧ (startCSS3Dparticles wavesPreset).length
        = css3dAmountX wavesPreset * css3dAmountY wavesPreset
    ∧ (∀ p ∈ startCSS3Dparticles wavesPreset,
        p.ix < css3dAmountX wavesPreset ∧ p.iy < css3dAmountY wavesPreset
        ∧ p.posX = (p.ix : ℚ) * css3dSeparation wavesPreset -
            (css3dAmountX wavesPreset : ℚ) * css3dSeparation wavesPreset / 2
        ∧ p.posZ = (p.iy : ℚ) * css3dSeparation wavesPreset -
            (css3dAmountY wavesPreset : ℚ) * css3dSeparation wavesPreset / 2)
    ∧ ((css3dAmountX wavesPreset : ℚ) * css3dSeparation wavesPreset
        = (wavesPreset.amountX : ℚ) * wavesPreset.separation
        ↔ (wavesPreset.amountX = 0 ∨ wavesPreset.amountX = 30))
    ∧ ((css3dAmountY wavesPreset : ℚ) * css3dSeparation wavesPreset
        = (wavesPreset.amountY : ℚ) * wavesPreset.separation
        ↔ wavesPreset.amountY = 0) :=
  css3d_grid_spec wavesPreset (by decide)

end WaveHero
